import Mathlib

/-!
Verification of the asset-tracker engine (`tracker.py`, `db_manager.py`).

Shallow embedding conventions:
* Python `Decimal` is modelled as `ℚ` (the spec mandates exact decimal
  arithmetic for all quantities, prices and sums).
* Python exceptions are modelled with `Except PyErr`; each constructor of
  `PyErr` stands for a Python exception class relevant to the control flow.
* Python dicts used as price caches are modelled as `String → Option ℚ`;
  the per-exchange `detail` dict and the temporary ticker tables, which the
  code builds up key by key, are modelled as association lists with the same
  insertion/overwrite discipline as a dict.
* Database access is modelled by recording the `execute_many` calls that
  `_dump_to_db` issues (statement text plus rows); backend success/failure
  is an oracle `failOn : Nat → Bool` giving the outcome of the n-th call.
-/

/-- Python exceptions distinguished by the tracker's `try/except` clauses.
`invalidOperation` is `decimal.InvalidOperation` (a subclass of
`ArithmeticError`, not of `ValueError`); `apiExc`-style exchange errors are
handled separately in `FetchOutcome`. -/
inductive PyErr where
  | keyError
  | valueError
  | typeError
  | invalidOperation
  | dbError
  | otherError
deriving DecidableEq, Repr

/-- The canonical balance record produced by `BaseTracker.format_balance`
(tracker.py lines 45-64): coin, free, locked, total, exchange, account type. -/
structure Balance where
  coin : String
  free : ℚ
  locked : ℚ
  total : ℚ
  exchange : String
  btype : String
deriving DecidableEq, Repr

/-- A raw Binance spot balance record as seen by `_format_spot_balance`
(tracker.py lines 81-90).  `asset = none` models a missing `'asset'` key
(access raises `KeyError`).  For the numeric fields, `none` models an absent
key (so `balance.get(key, '0')` yields the string `'0'`, which parses to 0),
`some none` models a present value whose text does not parse as a decimal
(so `Decimal(str(v))` raises `decimal.InvalidOperation`), and `some (some q)`
models a present value parsing to the exact decimal `q`. -/
structure RawSpotRecord where
  asset : Option String
  free : Option (Option ℚ)
  locked : Option (Option ℚ)
deriving DecidableEq, Repr

/-- `Decimal(str(v))`: returns the parsed exact value, or raises
`decimal.InvalidOperation` when the text does not parse. -/
def pyDecimal : Option ℚ → Except PyErr ℚ
  | some q => Except.ok q
  | none => Except.error PyErr.invalidOperation

/-- `BinanceTracker._format_spot_balance` (tracker.py lines 81-90):
`balance['asset']` raises `KeyError` if missing; `free`/`locked` default to
the string `'0'` via `.get`; `total = free + locked`. -/
def formatSpotBalance (exch : String) (r : RawSpotRecord) : Except PyErr Balance :=
  match r.asset with
  | none => Except.error PyErr.keyError
  | some asset =>
    match pyDecimal (r.free.getD (some 0)) with
    | Except.error e => Except.error e
    | Except.ok free =>
      match pyDecimal (r.locked.getD (some 0)) with
      | Except.error e => Except.error e
      | Except.ok locked =>
        Except.ok { coin := asset, free := free, locked := locked,
                    total := free + locked, exchange := exch, btype := "spot" }

/-- The exception classes caught by `_is_valid_balance`'s
`except (KeyError, ValueError, TypeError)` clause (tracker.py line 71). -/
def caughtInIsValid : PyErr → Bool
  | PyErr.keyError => true
  | PyErr.valueError => true
  | PyErr.typeError => true
  | _ => false

/-- `BaseTracker._is_valid_balance` (tracker.py lines 66-72): formats the
record and tests `formatted['total'] > Decimal('0')`; `KeyError`,
`ValueError` and `TypeError` are caught and yield `False`; any other
exception (notably `decimal.InvalidOperation`) propagates. -/
def is_valid_balance (fmt : RawSpotRecord → Except PyErr Balance) (r : RawSpotRecord) :
    Except PyErr Bool :=
  match fmt r with
  | Except.ok b => Except.ok (decide (0 < b.total))
  | Except.error e => if caughtInIsValid e then Except.ok false else Except.error e

/-- `BaseTracker.format_balance` (tracker.py lines 45-64): keeps, in order,
the records that `_is_valid_balance` accepts, formatting each kept record a
second time; an exception not caught by `_is_valid_balance` aborts the whole
call. -/
def format_balance (fmt : RawSpotRecord → Except PyErr Balance) :
    List RawSpotRecord → Except PyErr (List Balance)
  | [] => Except.ok []
  | r :: rs =>
    match is_valid_balance fmt r with
    | Except.error e => Except.error e
    | Except.ok true =>
      match fmt r with
      | Except.error e => Except.error e
      | Except.ok b => (format_balance fmt rs).map (fun l => b :: l)
    | Except.ok false => format_balance fmt rs

/-- `true` when formatting this record either succeeds or raises one of the
exception classes that `_is_valid_balance` catches. -/
def errCaught (x : Except PyErr Balance) : Bool :=
  match x with
  | Except.ok _ => true
  | Except.error e => caughtInIsValid e

/-- The shared price cache `self.tickers` (tracker.py line 214), a Python
dict from pair symbol to last price. -/
abbrev Tickers := String → Option ℚ

/-- `dict.get(key, default)`. -/
def dictGet (t : Tickers) (k : String) (d : ℚ) : ℚ :=
  (t k).getD d

/-- `dict.copy()` under the lock (tracker.py lines 273-274): an independent
snapshot with the same contents. -/
def dictCopy (t : Tickers) : Tickers := t

/-- Store one key/value pair into a dict. -/
def dictStore (t : Tickers) (p : String × ℚ) : Tickers :=
  fun k => if k = p.1 then some p.2 else t k

/-- `dict.update(temp)` where the update table is given as the list of its
entries in insertion order (later bindings overwrite earlier ones, exactly
as successive dict stores do). -/
def dictUpdateList (t : Tickers) (ps : List (String × ℚ)) : Tickers :=
  ps.foldl dictStore t

/-- The merge step of `_tracker_ticker_loop` (tracker.py lines 381-383):
`if temp_tickers:` then, under the lock, `self.tickers.update(temp_tickers)`. -/
def tickerMerge (t : Tickers) (temp : List (String × ℚ)) : Tickers :=
  if temp.isEmpty then t else dictUpdateList t temp

/-- The binding a Python dict built from `ps` would hold for `k`: the last
binding of `k` in `ps`, if any. -/
def lookupLast : List (String × ℚ) → String → Option ℚ
  | [], _ => none
  | p :: ps, k =>
    match lookupLast ps k with
    | some v => some v
    | none => if k = p.1 then some p.2 else none

/-- Price lookup of `_dump_to_db` (tracker.py lines 282-284):
`tickers.get(coin + 'USDT', Decimal('0'))`, then overridden to exactly 1
when `coin == 'USDT'`. -/
def priceOf (t : Tickers) (coin : String) : ℚ :=
  let p := dictGet t (coin ++ "USDT") 0
  if coin = "USDT" then 1 else p

/-- One row appended to `values` in `_dump_to_db` (tracker.py lines 295-306).
The code stringifies the numeric fields with `str`, which is injective on
exact decimals, so the row is modelled with its numeric values. -/
structure AssetRow where
  userId : Nat
  createdAt : String
  coin : String
  exchange : String
  btype : String
  free : ℚ
  locked : ℚ
  total : ℚ
  priceUsdt : ℚ
  totalUsdt : ℚ
deriving DecidableEq, Repr

/-- Build the `values` tuple for one balance (tracker.py lines 282-306). -/
def mkRow (t : Tickers) (uid : Nat) (now : String) (b : Balance) : AssetRow :=
  let price := priceOf t b.coin
  { userId := uid, createdAt := now, coin := b.coin, exchange := b.exchange,
    btype := b.btype, free := b.free, locked := b.locked, total := b.total,
    priceUsdt := price, totalUsdt := price * b.total }

/-- `detail[exchange] = v` / `detail[exchange] += v` (tracker.py lines
290-293) on a dict modelled as an association list with unique keys: update
the existing entry in place, else append a new one. -/
def detailAdd : List (String × ℚ) → String → ℚ → List (String × ℚ)
  | [], ex, v => [(ex, v)]
  | (k, w) :: rest, ex, v =>
    if k = ex then (k, w + v) :: rest else (k, w) :: detailAdd rest ex v

/-- Dict read `detail.get(ex, 0)` on the association-list model. -/
def lookupD : List (String × ℚ) → String → ℚ
  | [], _ => 0
  | p :: d, ex => if p.1 = ex then p.2 else lookupD d ex

/-- Sum of all values of the `detail` dict. -/
def sumVals (d : List (String × ℚ)) : ℚ :=
  (d.map Prod.snd).sum

/-- The running state of `_dump_to_db`'s loop over `balances` (tracker.py
lines 269-306): `total_usdt_sum`, `detail` and `values`. -/
structure DumpAcc where
  totalUsdtSum : ℚ
  detail : List (String × ℚ)
  values : List AssetRow
deriving DecidableEq, Repr

/-- One iteration of the loop in `_dump_to_db` (tracker.py lines 278-306):
skip the balance when `total == 0`; otherwise value it, add to the running
sum and the per-exchange detail, and append the row. -/
def dumpStep (t : Tickers) (uid : Nat) (now : String) (acc : DumpAcc) (b : Balance) :
    DumpAcc :=
  if b.total = 0 then acc
  else
    let row := mkRow t uid now b
    { totalUsdtSum := acc.totalUsdtSum + row.totalUsdt
      detail := detailAdd acc.detail b.exchange row.totalUsdt
      values := acc.values ++ [row] }

/-- The whole loop of `_dump_to_db` starting from
`total_usdt_sum = 0`, `detail = {}`, `values = []`. -/
def dumpFold (t : Tickers) (uid : Nat) (now : String) (bs : List Balance) : DumpAcc :=
  bs.foldl (dumpStep t uid now) ⟨0, [], []⟩

/-- The SQL text for the per-asset batch insert before placeholders are
appended (tracker.py lines 309-314, a triple-quoted string). -/
def assetsSqlBase : String :=
  "\n                INSERT INTO assets_history (\n                    user_id, created_at, coin, exchange, type, \n                    free, locked, total, price_usdt, total_usdt\n                ) VALUES \n            "

/-- The per-asset insert actually passed to `execute_many` (tracker.py lines
315-318): the backend-specific placeholder tuple is APPENDED (`sql +=`) to
the complete INSERT text. -/
def assetsSql (connector : String) : String :=
  if connector = "mysql" then
    assetsSqlBase ++ "(%s, %s, %s, %s, %s, %s, %s, %s, %s, %s)"
  else
    assetsSqlBase ++ "(?, ?, ?, ?, ?, ?, ?, ?, ?, ?)"

/-- The SQL text built for the total-assets insert (tracker.py lines
324-328) before the placeholder branch runs. -/
def totalSqlBase : String :=
  "\n                INSERT INTO total_assets_history (\n                    user_id, created_at, total_usdt, detail\n                ) VALUES \n            "

/-- The total-assets statement actually passed to `execute_many` (tracker.py
lines 329-332): the code ASSIGNS (`sql =`, not `sql +=`) the placeholder
tuple, discarding `totalSqlBase` entirely. -/
def totalSql (connector : String) : String :=
  if connector = "mysql" then "(%s, %s, %s, %s)" else "(?, ?, ?, ?)"

/-- Whitespace as far as SQL statement text is concerned. -/
def isSpaceChar (c : Char) : Bool :=
  (c = ' ') || (c = '\n') || (c = '\t') || (c = '\r')

/-- A statement that is a syntactically complete INSERT: after stripping
leading whitespace it starts with the keywords INSERT INTO. -/
def isCompleteInsert (s : String) : Bool :=
  List.isPrefixOf ("INSERT INTO".data) (s.data.dropWhile isSpaceChar)

/-- The single row inserted into `total_assets_history` (tracker.py lines
333-338); `detail` is the per-exchange breakdown that the code serialises
as JSON. -/
structure TotalRow where
  userId : Nat
  createdAt : String
  totalUsdt : ℚ
  detail : List (String × ℚ)
deriving DecidableEq, Repr

/-- One `execute_many` call issued by `_dump_to_db`: the statement text and
the rows passed with it. -/
inductive DbWrite where
  | assets (sql : String) (rows : List AssetRow)
  | total (sql : String) (rows : List TotalRow)
deriving DecidableEq, Repr

/-- `Tracker._dump_to_db` (tracker.py lines 258-344): computes the rows, the
running total and the per-exchange detail, then issues two `execute_many`
calls in order.  `failOn n` tells whether the n-th call raises in the
backend; the surrounding `try/except` logs and RE-RAISES (line 344), so a
backend failure surfaces as `Except.error` after the calls attempted so far.
Returns the attempted calls in order, and the outcome. -/
def dump_to_db (connector : String) (t : Tickers) (failOn : Nat → Bool)
    (uid : Nat) (now : String) (balances : List Balance) :
    List DbWrite × Except PyErr Unit :=
  let acc := dumpFold t uid now balances
  let w1 := DbWrite.assets (assetsSql connector) acc.values
  if failOn 0 then ([w1], Except.error PyErr.dbError)
  else
    let w2 := DbWrite.total (totalSql connector)
      [{ userId := uid, createdAt := now, totalUsdt := acc.totalUsdtSum,
         detail := acc.detail : TotalRow }]
    if failOn 1 then ([w1, w2], Except.error PyErr.dbError)
    else ([w1, w2], Except.ok ())

/-- What one call to an adapter's `get_account_assets` does from the account
loop's point of view: return a (formatted) balance list, or raise. -/
inductive AdapterBehavior where
  | returns (bs : List Balance)
  | raises (e : PyErr)
deriving DecidableEq, Repr

/-- Outcome of the exchange-API interaction inside
`BinanceTracker.get_account_assets` / `CoinexTracker.get_account_assets`
(tracker.py lines 103-126 and 173-192): the fetch+format succeeds with a
balance list, or the exchange client raises its API exception
(`BinanceAPIException` / `CoinexAPIException`), or some other exception is
raised (e.g. a connection error from the underlying HTTP client). -/
inductive FetchOutcome where
  | data (bs : List Balance)
  | apiExc
  | otherExc (e : PyErr)
deriving DecidableEq, Repr

/-- `get_account_assets` error handling (tracker.py lines 124-126, 190-192):
the exchange's own API exception is caught, logged and turned into `[]`;
any other exception propagates to the caller. -/
def get_account_assets : FetchOutcome → AdapterBehavior
  | FetchOutcome.data bs => AdapterBehavior.returns bs
  | FetchOutcome.apiExc => AdapterBehavior.returns []
  | FetchOutcome.otherExc e => AdapterBehavior.raises e

/-- The collection loop of `_tracker_account_loop` (tracker.py lines
351-354): `balances = balances + tracker.get_account_assets()` over the
configured adapters in order; an adapter call that raises aborts the loop
with that exception. -/
def collect_balances : List AdapterBehavior → Except PyErr (List Balance)
  | [] => Except.ok []
  | AdapterBehavior.returns bs :: rest =>
    (collect_balances rest).map (fun acc => bs ++ acc)
  | AdapterBehavior.raises e :: _ => Except.error e

/-- One iteration of `_tracker_account_loop` (tracker.py lines 349-361):
collect balances from all adapters, and `if balances:` write them via
`_dump_to_db`; the whole body sits under `except Exception` (line 357),
so nothing escapes the iteration.  Returns the `execute_many` calls
attempted during the iteration and the exception escaping it (always
`none`). -/
def account_tick (connector : String) (t : Tickers) (failOn : Nat → Bool)
    (uid : Nat) (now : String) (adapters : List AdapterBehavior) :
    List DbWrite × Option PyErr :=
  match collect_balances adapters with
  | Except.error _e => ([], none)
  | Except.ok bs =>
    if bs.isEmpty then ([], none)
    else
      match dump_to_db connector t failOn uid now bs with
      | (ws, Except.ok _) => (ws, none)
      | (ws, Except.error _e) => (ws, none)

/-- A run of consecutive account-loop iterations, each described by its own
adapters' behaviour and backend outcomes: the loop body holds no state
across iterations (no retry queue, no pending snapshots), so the writes of
each tick are a function of that tick's inputs alone. -/
def run_account_ticks (connector : String) (t : Tickers) (uid : Nat) (now : String)
    (ticks : List (List AdapterBehavior × (Nat → Bool))) : List (List DbWrite) :=
  ticks.map (fun p => (account_tick connector t p.2 uid now p.1).1)

namespace Tracker

/-- The lifecycle state a `Tracker` instance holds: the `stop_event` flag
(tracker.py line 208) and the started threads dict (line 216), modelled by
its list of keys. -/
structure TrackerState where
  stopEventSet : Bool
  threads : List String
deriving DecidableEq, Repr

/-- The state right after `Tracker.__init__`: event not set, no threads. -/
def initState : TrackerState := { stopEventSet := false, threads := [] }

/-- `Tracker.start` (tracker.py lines 390-400): creates and starts the
ticker and account threads and records them. -/
def start (s : TrackerState) : TrackerState :=
  { s with threads := s.threads ++ ["ticker", "account"] }

/-- `Tracker.stop` (tracker.py lines 403-408): sets the stop event and joins
every recorded thread.  `Event.set` is idempotent and raises nothing;
`Thread.join` on a finished (or the empty set of) thread(s) returns without
error, so the call never raises — the second component is the escaping
exception, always `none`. -/
def stop (s : TrackerState) : TrackerState × Option PyErr :=
  ({ s with stopEventSet := true }, none)

/-- Iterations the `while not self.stop_event.is_set()` loops (tracker.py
lines 348, 368) perform within a window of `fuel` poll intervals, when the
stop flag has the given value throughout: the flag is tested before every
iteration. -/
def runLoop (stopSet : Bool) : Nat → Nat
  | 0 => 0
  | n + 1 => if stopSet then 0 else 1 + runLoop stopSet n

end Tracker

/-! ### Closed forms of the `_dump_to_db` loop -/

/-- The balances that survive the `if balance['total'] == 0: continue` guard
(tracker.py lines 279-280), in order. -/
def keptBalances (bs : List Balance) : List Balance :=
  bs.filter (fun b => decide (¬ b.total = 0))

/-- The quote value `price_usdt * balance['total']` of one balance
(tracker.py line 287). -/
def rowValue (t : Tickers) (b : Balance) : ℚ :=
  priceOf t b.coin * b.total

theorem mkRow_totalUsdt (t : Tickers) (uid : Nat) (now : String) (b : Balance) :
    (mkRow t uid now b).totalUsdt = rowValue t b := rfl

theorem dump_values_eq (t : Tickers) (uid : Nat) (now : String) (bs : List Balance) :
    ∀ acc : DumpAcc,
      (List.foldl (dumpStep t uid now) acc bs).values
        = acc.values ++ (keptBalances bs).map (mkRow t uid now) := by
  induction bs with
  | nil => intro acc; simp [keptBalances]
  | cons b bs ih =>
    intro acc
    by_cases h : b.total = 0
    · simp [dumpStep, h, keptBalances, List.filter_cons, ih]
    · simp [dumpStep, h, keptBalances, List.filter_cons, ih]

theorem dump_sum_eq (t : Tickers) (uid : Nat) (now : String) (bs : List Balance) :
    ∀ acc : DumpAcc,
      (List.foldl (dumpStep t uid now) acc bs).totalUsdtSum
        = acc.totalUsdtSum + ((keptBalances bs).map (rowValue t)).sum := by
  induction bs with
  | nil => intro acc; simp [keptBalances]
  | cons b bs ih =>
    intro acc
    by_cases h : b.total = 0
    · simp [dumpStep, h, keptBalances, List.filter_cons, ih]
    · simp [dumpStep, h, keptBalances, List.filter_cons, ih, mkRow, rowValue]
      ring

theorem sumVals_detailAdd (d : List (String × ℚ)) (ex : String) (v : ℚ) :
    sumVals (detailAdd d ex v) = sumVals d + v := by
  induction d with
  | nil => simp [detailAdd, sumVals]
  | cons p d ih =>
    by_cases h : p.1 = ex
    · cases p; simp_all [detailAdd, sumVals]; ring
    · cases p; simp_all [detailAdd, sumVals]; ring

theorem dump_detail_sum_eq (t : Tickers) (uid : Nat) (now : String) (bs : List Balance) :
    ∀ acc : DumpAcc,
      sumVals (List.foldl (dumpStep t uid now) acc bs).detail
        = sumVals acc.detail + ((keptBalances bs).map (rowValue t)).sum := by
  induction bs with
  | nil => intro acc; simp [keptBalances]
  | cons b bs ih =>
    intro acc
    by_cases h : b.total = 0
    · simp [dumpStep, h, keptBalances, List.filter_cons, ih]
    · simp [dumpStep, h, keptBalances, List.filter_cons, ih, sumVals_detailAdd,
        mkRow, rowValue]
      ring

theorem lookupD_detailAdd (d : List (String × ℚ)) (k ex : String) (v : ℚ) :
    lookupD (detailAdd d k v) ex = lookupD d ex + (if k = ex then v else 0) := by
  induction d with
  | nil =>
    by_cases h : k = ex <;> simp [detailAdd, lookupD, h]
  | cons p d ih =>
    by_cases hp : p.1 = k
    · cases p with
      | mk k' w =>
        simp only at hp
        subst hp
        by_cases h : k' = ex <;> simp [detailAdd, lookupD, h]
    · cases p with
      | mk k' w =>
        simp only at hp
        by_cases h : k' = ex
        · subst h
          have hk : ¬ k = k' := fun hkk => hp hkk.symm
          simp [detailAdd, lookupD, hp, hk]
        · simp [detailAdd, lookupD, hp, h, ih]

theorem dump_detail_lookup_eq (t : Tickers) (uid : Nat) (now : String) (ex : String)
    (bs : List Balance) :
    ∀ acc : DumpAcc,
      lookupD (List.foldl (dumpStep t uid now) acc bs).detail ex
        = lookupD acc.detail ex
          + (((keptBalances bs).filter (fun b => decide (b.exchange = ex))).map
              (rowValue t)).sum := by
  induction bs with
  | nil => intro acc; simp [keptBalances]
  | cons b bs ih =>
    intro acc
    by_cases h : b.total = 0
    · simp [dumpStep, h, keptBalances, List.filter_cons, ih]
    · by_cases hex : b.exchange = ex
      · simp [dumpStep, h, hex, keptBalances, List.filter_cons, ih,
          lookupD_detailAdd, mkRow, rowValue]
        ring
      · simp [dumpStep, h, hex, keptBalances, List.filter_cons, ih,
          lookupD_detailAdd, mkRow, rowValue]

/-! ### Closed form of the dict update in the ticker loop -/

theorem dictUpdateList_eq (ps : List (String × ℚ)) :
    ∀ (t : Tickers) (k : String),
      dictUpdateList t ps k
        = match lookupLast ps k with
          | some v => some v
          | none => t k := by
  induction ps with
  | nil => intro t k; simp [dictUpdateList, lookupLast]
  | cons p ps ih =>
    intro t k
    have hstep : dictUpdateList t (p :: ps) = dictUpdateList (dictStore t p) ps := rfl
    rw [hstep, ih]
    cases hl : lookupLast ps k with
    | some v => simp [lookupLast, hl]
    | none =>
      by_cases hk : k = p.1
      · subst hk
        simp [lookupLast, dictStore, hl]
      · simp [lookupLast, dictStore, hl, hk]

/-- When every adapter returns an empty list, the collection loop yields an
empty balance list. -/
theorem collect_balances_empty (adapters : List AdapterBehavior)
    (h : ∀ a ∈ adapters, a = AdapterBehavior.returns []) :
    collect_balances adapters = Except.ok [] := by
  induction adapters with
  | nil => rfl
  | cons a rest ih =>
    have ha : a = AdapterBehavior.returns [] := h a (by simp)
    subst ha
    have hrest := ih (fun x hx => h x (by simp [hx]))
    simp [collect_balances, hrest, Except.map]

/-! ### Concrete fixtures -/

deriving instance DecidableEq for Except

/-- A backend on which every `execute_many` call succeeds. -/
def noFail : Nat → Bool := fun _ => false

/-- A backend on which the first `execute_many` call raises. -/
def failFirst : Nat → Bool := fun n => decide (n = 0)

/-- An empty price cache. -/
def emptyTickers : Tickers := fun _ => none

/-- A canonical BTC spot balance on binance. -/
def btcBalance : Balance :=
  { coin := "BTC", free := 1, locked := 0, total := 1,
    exchange := "binance", btype := "spot" }

/-- A canonical balance in a coin with no cached price. -/
def xyzBalance : Balance :=
  { coin := "XYZ", free := 2, locked := 0, total := 2,
    exchange := "binance", btype := "spot" }

/-- A canonical USDT balance. -/
def usdtBalance : Balance :=
  { coin := "USDT", free := 5, locked := 0, total := 5,
    exchange := "coinex", btype := "spot" }

/-- A cache that (wrongly, per the spec's special case) carries a price for
the pair symbol USDTUSDT. -/
def usdtPairTickers : Tickers :=
  fun k => if k = "USDTUSDT" then some 7 else none

/-- A cache holding only an ETHUSDT price. -/
def ethTickers : Tickers :=
  fun k => if k = "ETHUSDT" then some 5 else none

/-- A cache holding only a BTCUSDT price of 2. -/
def btcTickers : Tickers :=
  fun k => if k = "BTCUSDT" then some 2 else none

/-- A raw record whose `free` field does not parse as a decimal. -/
def badFreeRecord : RawSpotRecord :=
  { asset := some "BTC", free := some none, locked := some (some 0) }

/-- A well-formed raw record with positive total. -/
def goodRecord : RawSpotRecord :=
  { asset := some "BTC", free := some (some 1), locked := some (some 0) }

/-- A raw record with the required `asset` field missing. -/
def missingAssetRecord : RawSpotRecord :=
  { asset := none, free := some (some 2), locked := some (some 0) }

/-- A well-formed raw record with zero total. -/
def zeroRecord : RawSpotRecord :=
  { asset := some "ETH", free := some (some 0), locked := none }

/-! ### C1 -/

set_option maxRecDepth 8192

/-- C1: `_dump_to_db` on a non-empty balance list issues exactly one batch
insert against the asset-history store and one single-row insert against
the total-history store, with the backend's placeholder style — but the
claim's requirement that the placeholders are APPENDED TO A SYNTACTICALLY
COMPLETE INSERT fails for the second statement: tracker.py lines 329-332
assign (`sql =`) instead of appending (`sql +=`), so the statement passed to
`execute_many` for `total_assets_history` is the bare placeholder tuple.
This theorem evaluates the code at the failing input: two calls are issued,
the first is a complete INSERT with `?`-placeholders appended, while the
second equals `"(?, ?, ?, ?)"` (resp. `"(%s, %s, %s, %s)"` for mysql) and is
not an INSERT statement at all. -/
theorem c1_total_statement_truncated :
    (dump_to_db "sqlite" emptyTickers noFail 1 "2025-01-01 00:00:00" [btcBalance]).1
      = [DbWrite.assets (assetsSql "sqlite")
           (dumpFold emptyTickers 1 "2025-01-01 00:00:00" [btcBalance]).values,
         DbWrite.total (totalSql "sqlite")
           [{ userId := 1, createdAt := "2025-01-01 00:00:00",
              totalUsdt := (dumpFold emptyTickers 1 "2025-01-01 00:00:00"
                [btcBalance]).totalUsdtSum,
              detail := (dumpFold emptyTickers 1 "2025-01-01 00:00:00"
                [btcBalance]).detail }]]
    ∧ (dumpFold emptyTickers 1 "2025-01-01 00:00:00" [btcBalance]).values
        = [mkRow emptyTickers 1 "2025-01-01 00:00:00" btcBalance]
    ∧ assetsSql "sqlite" = assetsSqlBase ++ "(?, ?, ?, ?, ?, ?, ?, ?, ?, ?)"
    ∧ isCompleteInsert (assetsSql "sqlite") = true
    ∧ isCompleteInsert (assetsSql "mysql") = true
    ∧ totalSql "sqlite" = "(?, ?, ?, ?)"
    ∧ totalSql "mysql" = "(%s, %s, %s, %s)"
    ∧ isCompleteInsert (totalSql "sqlite") = false
    ∧ isCompleteInsert (totalSql "mysql") = false := by
  refine ⟨rfl, ?_, rfl, by decide, by decide, rfl, rfl, by decide, by decide⟩
  norm_num [dumpFold, dumpStep, btcBalance]

/-! ### C2 -/

/-- C2 counterexample: a raw record whose `free` field is not parseable as a
decimal makes `format_balance` raise `decimal.InvalidOperation` —
`_is_valid_balance` catches only `(KeyError, ValueError, TypeError)`
(tracker.py line 71), and `InvalidOperation` is an `ArithmeticError`, not
one of those — so an exception does escape `format_balance`, contradicting
the claim that such records are silently dropped. -/
theorem c2_counterexample :
    format_balance (formatSpotBalance "binance") [badFreeRecord]
      = Except.error PyErr.invalidOperation := by
  decide

/-- C2 amended: for every format function and record list, when each
record's formatting either succeeds or raises one of the caught classes
(`KeyError`, `ValueError`, `TypeError`) — which covers missing required
fields — `format_balance` raises nothing, silently drops the records that
fail to format or whose computed total is `<= 0`, and returns exactly the
records whose formatted total is `> 0`, in order.  A field not parseable as
a decimal is NOT in this category: for the spot formatter it raises
`decimal.InvalidOperation`, which escapes `format_balance` (second
conjunct). -/
theorem c2_amended_format_balance (fmt : RawSpotRecord → Except PyErr Balance)
    (rs : List RawSpotRecord) (h : ∀ r ∈ rs, errCaught (fmt r) = true) :
    format_balance fmt rs
      = Except.ok (rs.filterMap (fun r =>
          match fmt r with
          | Except.ok b => if 0 < b.total then some b else none
          | Except.error _ => none))
    ∧ ∀ (exch a : String) (l : Option (Option ℚ)) (rs₂ : List RawSpotRecord),
        format_balance (formatSpotBalance exch)
            ({ asset := some a, free := some none, locked := l } :: rs₂)
          = Except.error PyErr.invalidOperation := by
  constructor
  · induction rs with
    | nil => rfl
    | cons r rest ih =>
      have hr := h r (by simp)
      have ht : ∀ x ∈ rest, errCaught (fmt x) = true := fun x hx => h x (by simp [hx])
      cases hf : fmt r with
      | error e =>
        have hc : caughtInIsValid e = true := by simpa [errCaught, hf] using hr
        simp [format_balance, is_valid_balance, hf, hc, List.filterMap_cons, ih ht]
      | ok b =>
        by_cases hb : 0 < b.total
        · simp [format_balance, is_valid_balance, hf, hb, List.filterMap_cons,
            ih ht, Except.map]
        · simp [format_balance, is_valid_balance, hf, hb, List.filterMap_cons, ih ht]
  · intro exch a l rs₂
    rfl

/-- Witness for C2's amended theorem at a concrete input: a good record, a
record missing its required field, and a zero-total record; the missing
field and the zero total are silently dropped and exactly the good record
is returned. -/
theorem c2_amended_witness :
    (∀ r ∈ [goodRecord, missingAssetRecord, zeroRecord],
        errCaught (formatSpotBalance "binance" r) = true)
    ∧ format_balance (formatSpotBalance "binance")
          [goodRecord, missingAssetRecord, zeroRecord]
        = Except.ok ([goodRecord, missingAssetRecord, zeroRecord].filterMap (fun r =>
            match formatSpotBalance "binance" r with
            | Except.ok b => if 0 < b.total then some b else none
            | Except.error _ => none))
    ∧ format_balance (formatSpotBalance "binance")
          [goodRecord, missingAssetRecord, zeroRecord]
        = Except.ok [{ coin := "BTC", free := 1, locked := 0, total := 1,
                       exchange := "binance", btype := "spot" }] := by
  refine ⟨by decide,
    (c2_amended_format_balance (formatSpotBalance "binance")
      [goodRecord, missingAssetRecord, zeroRecord] (by decide)).1,
    ?_⟩
  norm_num [format_balance, is_valid_balance, formatSpotBalance, pyDecimal,
    goodRecord, missingAssetRecord, zeroRecord, caughtInIsValid, Except.map]

/-! ### C3 -/

/-- C3 counterexample: adapter A returns a BTC balance and adapter B's
`get_account_assets` raises; the account-task iteration catches the
exception (second conjunct), but — contrary to the claim — the balances
already collected from A are NOT persisted: the collection loop
(tracker.py lines 352-354) sits inside the same `try` as the write, so the
exception aborts the iteration before `_dump_to_db` and no row at all is
written (first conjunct). -/
theorem c3_counterexample :
    (account_tick "sqlite" emptyTickers noFail 1 "2025-01-01 00:00:00"
        [AdapterBehavior.returns [btcBalance],
         AdapterBehavior.raises PyErr.otherError]).1 = []
    ∧ (account_tick "sqlite" emptyTickers noFail 1 "2025-01-01 00:00:00"
        [AdapterBehavior.returns [btcBalance],
         AdapterBehavior.raises PyErr.otherError]).2 = none := by
  exact ⟨rfl, rfl⟩

/-- C3 amended: when the failing adapter's transient error is its exchange's
API exception, `get_account_assets` itself catches it and returns `[]`
(tracker.py lines 124-126), so the other adapter's non-empty balance list is
persisted by `_dump_to_db`, the failing adapter contributes nothing, and no
exception escapes the iteration; and in every case — even when
`get_account_assets` raises and the tick's write is skipped — no exception
escapes the account-task iteration (third conjunct).  Only when the error
escapes `get_account_assets` does the claim fail, as shown by the
counterexample. -/
theorem c3_amended_tick (connector : String) (t : Tickers) (failOn : Nat → Bool)
    (uid : Nat) (now : String) (bsA : List Balance) (hA : ¬ bsA = []) :
    (account_tick connector t failOn uid now
        [get_account_assets (FetchOutcome.data bsA),
         get_account_assets FetchOutcome.apiExc]).1
      = (dump_to_db connector t failOn uid now bsA).1
    ∧ (account_tick connector t failOn uid now
        [get_account_assets (FetchOutcome.data bsA),
         get_account_assets FetchOutcome.apiExc]).2 = none
    ∧ ∀ adapters : List AdapterBehavior,
        (account_tick connector t failOn uid now adapters).2 = none := by
  have hcol : collect_balances
      [get_account_assets (FetchOutcome.data bsA),
       get_account_assets FetchOutcome.apiExc] = Except.ok bsA := by
    simp [get_account_assets, collect_balances, Except.map]
  have hE : bsA.isEmpty = false := by
    cases bsA with
    | nil => exact absurd rfl hA
    | cons b l => rfl
  refine ⟨?_, ?_, ?_⟩
  · cases hd : dump_to_db connector t failOn uid now bsA with
    | mk ws r => cases r <;> simp [account_tick, hcol, hE, hd]
  · cases hd : dump_to_db connector t failOn uid now bsA with
    | mk ws r => cases r <;> simp [account_tick, hcol, hE, hd]
  · intro adapters
    cases hc : collect_balances adapters with
    | error e => simp [account_tick, hc]
    | ok bs =>
      by_cases hbe : bs.isEmpty = true
      · simp [account_tick, hc, hbe]
      · cases hd : dump_to_db connector t failOn uid now bs with
        | mk ws r =>
          cases r <;> simp [account_tick, hc, hbe, hd]

/-- Witness for C3's amended theorem: adapter A holds one BTC balance,
adapter B fails with its exchange API exception; the asset rows from A are
persisted and nothing escapes. -/
theorem c3_amended_witness :
    (¬ [btcBalance] = [])
    ∧ ((account_tick "sqlite" emptyTickers noFail 1 "2025-01-01 00:00:00"
          [get_account_assets (FetchOutcome.data [btcBalance]),
           get_account_assets FetchOutcome.apiExc]).1
        = (dump_to_db "sqlite" emptyTickers noFail 1 "2025-01-01 00:00:00"
            [btcBalance]).1
      ∧ (account_tick "sqlite" emptyTickers noFail 1 "2025-01-01 00:00:00"
          [get_account_assets (FetchOutcome.data [btcBalance]),
           get_account_assets FetchOutcome.apiExc]).2 = none
      ∧ ∀ adapters : List AdapterBehavior,
          (account_tick "sqlite" emptyTickers noFail 1 "2025-01-01 00:00:00"
            adapters).2 = none) := by
  exact ⟨by decide,
    c3_amended_tick "sqlite" emptyTickers noFail 1 "2025-01-01 00:00:00"
      [btcBalance] (by decide)⟩

/-! ### C8 -/

/-- C8: if the persistence step inside `_dump_to_db` fails (here: the first
`execute_many` call raises), `_dump_to_db` re-raises (tracker.py line 344,
first conjunct); the calling account-task iteration catches it and lets the
iteration end normally, waiting for the next interval (second conjunct); the
only write attempted within the tick is that single failing statement — no
retry of the write within the same tick (third conjunct); and a following
iteration's writes are a function of that iteration's own inputs alone, so
the failed snapshot is neither queued nor re-written later (fourth
conjunct). -/
theorem c8_persistence_failure (connector : String) (t : Tickers) (uid : Nat)
    (now : String) (bs : List Balance) (hbs : ¬ bs = []) :
    (dump_to_db connector t failFirst uid now bs).2 = Except.error PyErr.dbError
    ∧ (account_tick connector t failFirst uid now [AdapterBehavior.returns bs]).2
        = none
    ∧ (account_tick connector t failFirst uid now [AdapterBehavior.returns bs]).1
        = [DbWrite.assets (assetsSql connector) (dumpFold t uid now bs).values]
    ∧ ∀ (adapters2 : List AdapterBehavior) (failOn2 : Nat → Bool),
        run_account_ticks connector t uid now
            [([AdapterBehavior.returns bs], failFirst), (adapters2, failOn2)]
          = [(account_tick connector t failFirst uid now
                [AdapterBehavior.returns bs]).1,
             (account_tick connector t failOn2 uid now adapters2).1] := by
  have hcol : collect_balances [AdapterBehavior.returns bs] = Except.ok bs := by
    simp [collect_balances, Except.map]
  have hE : bs.isEmpty = false := by
    cases bs with
    | nil => exact absurd rfl hbs
    | cons b l => rfl
  have hdump : dump_to_db connector t failFirst uid now bs
      = ([DbWrite.assets (assetsSql connector) (dumpFold t uid now bs).values],
         Except.error PyErr.dbError) := by
    simp [dump_to_db, failFirst]
  refine ⟨by rw [hdump], ?_, ?_, ?_⟩
  · simp [account_tick, hcol, hE, hdump]
  · simp [account_tick, hcol, hE, hdump]
  · intro adapters2 failOn2
    rfl

/-- Witness for C8 at a concrete input: one BTC balance, first write fails. -/
theorem c8_persistence_witness :
    (¬ [btcBalance] = [])
    ∧ ((dump_to_db "sqlite" emptyTickers failFirst 1 "2025-01-01 00:00:00"
          [btcBalance]).2 = Except.error PyErr.dbError
      ∧ (account_tick "sqlite" emptyTickers failFirst 1 "2025-01-01 00:00:00"
          [AdapterBehavior.returns [btcBalance]]).2 = none
      ∧ (account_tick "sqlite" emptyTickers failFirst 1 "2025-01-01 00:00:00"
          [AdapterBehavior.returns [btcBalance]]).1
          = [DbWrite.assets (assetsSql "sqlite")
              (dumpFold emptyTickers 1 "2025-01-01 00:00:00" [btcBalance]).values]
      ∧ ∀ (adapters2 : List AdapterBehavior) (failOn2 : Nat → Bool),
          run_account_ticks "sqlite" emptyTickers 1 "2025-01-01 00:00:00"
              [([AdapterBehavior.returns [btcBalance]], failFirst),
               (adapters2, failOn2)]
            = [(account_tick "sqlite" emptyTickers failFirst 1
                  "2025-01-01 00:00:00" [AdapterBehavior.returns [btcBalance]]).1,
               (account_tick "sqlite" emptyTickers failOn2 1
                  "2025-01-01 00:00:00" adapters2).1]) := by
  exact ⟨by decide,
    c8_persistence_failure "sqlite" emptyTickers 1 "2025-01-01 00:00:00"
      [btcBalance] (by decide)⟩

/-! ### C10 -/

/-- C10: when every configured adapter returns an empty balance list, the
account-task iteration performs no database writes at all — the `if
balances:` guard (tracker.py line 355) skips `_dump_to_db`, so neither an
asset-history row nor a total-history row is inserted, and nothing escapes
the iteration. -/
theorem c10_empty_tick_no_writes (connector : String) (t : Tickers)
    (failOn : Nat → Bool) (uid : Nat) (now : String)
    (adapters : List AdapterBehavior)
    (h : ∀ a ∈ adapters, a = AdapterBehavior.returns []) :
    account_tick connector t failOn uid now adapters = ([], none) := by
  simp [account_tick, collect_balances_empty adapters h]

/-- Witness for C10: two adapters, both returning empty lists. -/
theorem c10_empty_tick_witness :
    (∀ a ∈ [AdapterBehavior.returns [], AdapterBehavior.returns []],
        a = AdapterBehavior.returns [])
    ∧ account_tick "sqlite" emptyTickers noFail 1 "2025-01-01 00:00:00"
        [AdapterBehavior.returns [], AdapterBehavior.returns []] = ([], none) := by
  exact ⟨by decide,
    c10_empty_tick_no_writes "sqlite" emptyTickers noFail 1 "2025-01-01 00:00:00"
      [AdapterBehavior.returns [], AdapterBehavior.returns []] (by decide)⟩

/-! ### C4 -/

/-- C4: every asset row emitted by `_dump_to_db` for a balance whose coin is
the quote symbol USDT gets `price_usdt` exactly 1 — regardless of the price
cache contents, including a cache with a USDTUSDT entry at some other price,
since the `if balance['coin'] == 'USDT'` override (tracker.py lines 283-284)
runs after the lookup — and therefore the row's `total_usdt` equals the
balance's `total`. -/
theorem c4_usdt_price_one (t : Tickers) (uid : Nat) (now : String)
    (bs : List Balance) (r : AssetRow)
    (hr : r ∈ (dumpFold t uid now bs).values) (hc : r.coin = "USDT") :
    r.priceUsdt = 1 ∧ r.totalUsdt = r.total := by
  rw [dumpFold, dump_values_eq] at hr
  simp only [List.nil_append] at hr
  obtain ⟨b, hb, hbr⟩ := List.mem_map.mp hr
  subst hbr
  simp only [mkRow] at hc
  constructor
  · simp [mkRow, priceOf, hc]
  · simp [mkRow, priceOf, hc]

/-- Witness for C4: a USDT balance valued against a cache that even holds a
(spurious) USDTUSDT price of 7; the emitted row still has price 1 and value
equal to its total. -/
theorem c4_usdt_witness :
    (mkRow usdtPairTickers 1 "2025-01-01 00:00:00" usdtBalance
        ∈ (dumpFold usdtPairTickers 1 "2025-01-01 00:00:00" [usdtBalance]).values)
    ∧ (mkRow usdtPairTickers 1 "2025-01-01 00:00:00" usdtBalance).coin = "USDT"
    ∧ ((mkRow usdtPairTickers 1 "2025-01-01 00:00:00" usdtBalance).priceUsdt = 1
      ∧ (mkRow usdtPairTickers 1 "2025-01-01 00:00:00" usdtBalance).totalUsdt
          = (mkRow usdtPairTickers 1 "2025-01-01 00:00:00" usdtBalance).total) := by
  have h1 : mkRow usdtPairTickers 1 "2025-01-01 00:00:00" usdtBalance
      ∈ (dumpFold usdtPairTickers 1 "2025-01-01 00:00:00" [usdtBalance]).values := by
    norm_num [dumpFold, dumpStep, usdtBalance]
  have h2 : (mkRow usdtPairTickers 1 "2025-01-01 00:00:00" usdtBalance).coin
      = "USDT" := rfl
  exact ⟨h1, h2,
    c4_usdt_price_one usdtPairTickers 1 "2025-01-01 00:00:00" [usdtBalance] _ h1 h2⟩

/-! ### C5 -/

/-- C5: for every balance list and cache snapshot, the aggregate
`total_usdt_sum` written by `_dump_to_db` equals the sum of the per-exchange
breakdown values in `detail`, equals the sum of the emitted rows'
`total_usdt`, and is invariant under any permutation of the input balances;
the last conjunct records that `_dump_to_db` writes exactly this aggregate
and this detail in its total-history row. -/
theorem c5_aggregate_law (connector : String) (t : Tickers) (uid : Nat)
    (now : String) (bs bs' : List Balance) (hp : bs.Perm bs') :
    (dumpFold t uid now bs).totalUsdtSum = sumVals (dumpFold t uid now bs).detail
    ∧ (dumpFold t uid now bs).totalUsdtSum
        = ((dumpFold t uid now bs).values.map AssetRow.totalUsdt).sum
    ∧ (dumpFold t uid now bs).totalUsdtSum = (dumpFold t uid now bs').totalUsdtSum
    ∧ (dump_to_db connector t noFail uid now bs).1
        = [DbWrite.assets (assetsSql connector) (dumpFold t uid now bs).values,
           DbWrite.total (totalSql connector)
             [{ userId := uid, createdAt := now,
                totalUsdt := (dumpFold t uid now bs).totalUsdtSum,
                detail := (dumpFold t uid now bs).detail }]] := by
  refine ⟨?_, ?_, ?_, rfl⟩
  · rw [dumpFold, dump_sum_eq, dump_detail_sum_eq]
    simp [sumVals]
  · simp [dumpFold, dump_sum_eq, dump_values_eq, List.map_map, Function.comp_def,
      mkRow_totalUsdt]
  · have h1 : (keptBalances bs).Perm (keptBalances bs') := by
      unfold keptBalances
      exact hp.filter _
    have h2 := ((h1.map (rowValue t))).sum_eq
    simpa [dumpFold, dump_sum_eq] using h2

/-- Witness for C5: two balances on one exchange, listed in both orders. -/
theorem c5_aggregate_witness :
    ([btcBalance, xyzBalance].Perm [xyzBalance, btcBalance])
    ∧ ((dumpFold btcTickers 1 "2025-01-01 00:00:00" [btcBalance, xyzBalance]).totalUsdtSum
        = sumVals (dumpFold btcTickers 1 "2025-01-01 00:00:00"
            [btcBalance, xyzBalance]).detail
      ∧ (dumpFold btcTickers 1 "2025-01-01 00:00:00" [btcBalance, xyzBalance]).totalUsdtSum
          = ((dumpFold btcTickers 1 "2025-01-01 00:00:00"
              [btcBalance, xyzBalance]).values.map AssetRow.totalUsdt).sum
      ∧ (dumpFold btcTickers 1 "2025-01-01 00:00:00" [btcBalance, xyzBalance]).totalUsdtSum
          = (dumpFold btcTickers 1 "2025-01-01 00:00:00"
              [xyzBalance, btcBalance]).totalUsdtSum
      ∧ (dump_to_db "sqlite" btcTickers noFail 1 "2025-01-01 00:00:00"
            [btcBalance, xyzBalance]).1
          = [DbWrite.assets (assetsSql "sqlite")
               (dumpFold btcTickers 1 "2025-01-01 00:00:00"
                 [btcBalance, xyzBalance]).values,
             DbWrite.total (totalSql "sqlite")
               [{ userId := 1, createdAt := "2025-01-01 00:00:00",
                  totalUsdt := (dumpFold btcTickers 1 "2025-01-01 00:00:00"
                    [btcBalance, xyzBalance]).totalUsdtSum,
                  detail := (dumpFold btcTickers 1 "2025-01-01 00:00:00"
                    [btcBalance, xyzBalance]).detail }]]) := by
  exact ⟨List.Perm.swap xyzBalance btcBalance [],
    c5_aggregate_law "sqlite" btcTickers 1 "2025-01-01 00:00:00"
      [btcBalance, xyzBalance] [xyzBalance, btcBalance]
      (List.Perm.swap xyzBalance btcBalance [])⟩

/-! ### C6 -/

/-- C6: a balance holding the CanonicalBalance invariant `total > 0` whose
lookup key `coin ++ "USDT"` is absent from the cache snapshot (and whose
coin is not USDT itself) is valued at `price_usdt = 0` and
`total_usdt = 0`, still gets an asset row emitted, and contributes exactly
zero both to the aggregate total and to its exchange's breakdown entry:
removing it changes neither. -/
theorem c6_missing_price (t : Tickers) (uid : Nat) (now : String)
    (bs₁ bs₂ : List Balance) (b : Balance)
    (hmiss : t (b.coin ++ "USDT") = none) (hne : ¬ b.coin = "USDT")
    (hpos : 0 < b.total) :
    (mkRow t uid now b).priceUsdt = 0
    ∧ (mkRow t uid now b).totalUsdt = 0
    ∧ mkRow t uid now b ∈ (dumpFold t uid now (bs₁ ++ b :: bs₂)).values
    ∧ (dumpFold t uid now (bs₁ ++ b :: bs₂)).totalUsdtSum
        = (dumpFold t uid now (bs₁ ++ bs₂)).totalUsdtSum
    ∧ lookupD (dumpFold t uid now (bs₁ ++ b :: bs₂)).detail b.exchange
        = lookupD (dumpFold t uid now (bs₁ ++ bs₂)).detail b.exchange := by
  have hzero : priceOf t b.coin = 0 := by simp [priceOf, dictGet, hmiss, hne]
  have hv : rowValue t b = 0 := by simp [rowValue, hzero]
  have hbne : ¬ b.total = 0 := ne_of_gt hpos
  refine ⟨by simp [mkRow, hzero], by simp [mkRow, hzero], ?_, ?_, ?_⟩
  · have hmem : b ∈ keptBalances (bs₁ ++ b :: bs₂) := by
      simp [keptBalances, List.mem_filter, hbne]
    rw [dumpFold, dump_values_eq]
    simp only [List.nil_append]
    exact List.mem_map.mpr ⟨b, hmem, rfl⟩
  · rw [dumpFold, dumpFold, dump_sum_eq, dump_sum_eq]
    simp [keptBalances, List.filter_append, List.filter_cons, hbne, hv]
  · rw [dumpFold, dumpFold, dump_detail_lookup_eq, dump_detail_lookup_eq]
    simp [keptBalances, List.filter_append, List.filter_cons, hbne, hv]

/-- Witness for C6: an XYZ balance with no cached XYZUSDT price, inserted in
front of a BTC balance. -/
theorem c6_missing_price_witness :
    (emptyTickers (xyzBalance.coin ++ "USDT") = none)
    ∧ (¬ xyzBalance.coin = "USDT")
    ∧ (0 < xyzBalance.total)
    ∧ ((mkRow emptyTickers 1 "2025-01-01 00:00:00" xyzBalance).priceUsdt = 0
      ∧ (mkRow emptyTickers 1 "2025-01-01 00:00:00" xyzBalance).totalUsdt = 0
      ∧ mkRow emptyTickers 1 "2025-01-01 00:00:00" xyzBalance
          ∈ (dumpFold emptyTickers 1 "2025-01-01 00:00:00"
              ([] ++ xyzBalance :: [btcBalance])).values
      ∧ (dumpFold emptyTickers 1 "2025-01-01 00:00:00"
            ([] ++ xyzBalance :: [btcBalance])).totalUsdtSum
          = (dumpFold emptyTickers 1 "2025-01-01 00:00:00"
              ([] ++ [btcBalance])).totalUsdtSum
      ∧ lookupD (dumpFold emptyTickers 1 "2025-01-01 00:00:00"
            ([] ++ xyzBalance :: [btcBalance])).detail xyzBalance.exchange
          = lookupD (dumpFold emptyTickers 1 "2025-01-01 00:00:00"
              ([] ++ [btcBalance])).detail xyzBalance.exchange) := by
  exact ⟨rfl, by decide, by decide,
    c6_missing_price emptyTickers 1 "2025-01-01 00:00:00" [] [btcBalance]
      xyzBalance rfl (by decide) (by decide)⟩

/-! ### C7 -/

/-- C7: the price-cache merge performed by the ticker loop (a locked
`dict.update` with a non-empty update table) maps every symbol bound in the
update table to its (last) updated price, leaves every symbol absent from
the update table at its previous cached value, and a snapshot (locked
`dict.copy`) taken immediately after the merge shows the updated price. -/
theorem c7_cache_merge (t : Tickers) (temp : List (String × ℚ)) (k j : String)
    (v : ℚ) (hk : lookupLast temp k = some v) (hj : lookupLast temp j = none) :
    tickerMerge t temp k = some v
    ∧ tickerMerge t temp j = t j
    ∧ dictCopy (tickerMerge t temp) k = some v := by
  have hne : temp.isEmpty = false := by
    cases temp with
    | nil => simp [lookupLast] at hk
    | cons p ps => rfl
  refine ⟨?_, ?_, ?_⟩
  · simp [tickerMerge, hne, dictUpdateList_eq, hk]
  · simp [tickerMerge, hne, dictUpdateList_eq, hj]
  · simp [dictCopy, tickerMerge, hne, dictUpdateList_eq, hk]

/-- Witness for C7: merging a BTCUSDT price of 50000 into a cache holding
only ETHUSDT, then snapshotting. -/
theorem c7_cache_merge_witness :
    (lookupLast [("BTCUSDT", (50000 : ℚ))] "BTCUSDT" = some 50000)
    ∧ (lookupLast [("BTCUSDT", (50000 : ℚ))] "ETHUSDT" = none)
    ∧ (tickerMerge ethTickers [("BTCUSDT", (50000 : ℚ))] "BTCUSDT" = some 50000
      ∧ tickerMerge ethTickers [("BTCUSDT", (50000 : ℚ))] "ETHUSDT"
          = ethTickers "ETHUSDT"
      ∧ dictCopy (tickerMerge ethTickers [("BTCUSDT", (50000 : ℚ))]) "BTCUSDT"
          = some 50000) := by
  exact ⟨by decide, by decide,
    c7_cache_merge ethTickers [("BTCUSDT", (50000 : ℚ))] "BTCUSDT" "ETHUSDT"
      50000 (by decide) (by decide)⟩

/-! ### C9 -/

/-- C9 counterexample: calling `stop` before `start` raises nothing, but it
is NOT behaviour-preserving: it sets `stop_event` (so the state differs from
the freshly initialized one), and loops started afterwards observe the flag
at their first `while not self.stop_event.is_set()` test and run zero
iterations, where the same `start` without the prior `stop` runs them —
contradicting the claim that state and subsequent observable behaviour are
unchanged. -/
theorem c9_counterexample :
    (Tracker.stop Tracker.initState).1 ≠ Tracker.initState
    ∧ Tracker.runLoop
        (Tracker.start (Tracker.stop Tracker.initState).1).stopEventSet 3 = 0
    ∧ Tracker.runLoop (Tracker.start Tracker.initState).stopEventSet 3 = 3 := by
  exact ⟨by decide, rfl, rfl⟩

/-- C9 amended: `stop` never raises — before `start`, after `start`, or
repeated — and a second `stop` after one has completed is a true no-op (the
state is unchanged and nothing is raised); `stop` also leaves the recorded
threads untouched.  What the original claim wrongly included is
state/behaviour preservation of a `stop` before `start`: `stop` always sets
the stop event (last conjunct), so loops started afterwards exit
immediately, as the counterexample shows. -/
theorem c9_amended_stop (s : Tracker.TrackerState) :
    (Tracker.stop s).2 = none
    ∧ (Tracker.stop (Tracker.stop s).1).1 = (Tracker.stop s).1
    ∧ (Tracker.stop (Tracker.stop s).1).2 = none
    ∧ (Tracker.stop s).1.threads = s.threads
    ∧ (Tracker.stop s).1.stopEventSet = true := by
  exact ⟨rfl, rfl, rfl, rfl, rfl⟩
